import Mathlib

/-!
Verification development for the vocdoni-node blockchain voting indexer
(package `vochain/indexer`).  The definitions below are a shallow embedding
of `vochain/indexer/indexer.go`: byte strings become `List Nat`, Go maps
become association lists with explicit lookup/insert, fallible operations
return `Except`/`Option`, and panics become an explicit constructor of a
result type.  External collaborators that the indexer merely calls
(the sqlite driver, the chain-application state, `addLiveVote`) appear as
explicit function parameters, so the theorems quantify over all of their
possible behaviours.
-/

set_option autoImplicit false

namespace VocdoniIndexer

/-- Raw byte strings (Go `[]byte`), one `Nat` per byte. -/
abbrev Bytes := List Nat

/-- First-match lookup in an association list, mirroring a Go map read. -/
def lookupA {κ α : Type} [DecidableEq κ] (k : κ) : List (κ × α) → Option α
  | [] => none
  | (k2, v) :: rest => if k = k2 then some v else lookupA k rest

/-- Insert-or-replace in an association list, mirroring a Go map write. -/
def insertA {κ α : Type} [DecidableEq κ] (k : κ) (v : α) :
    List (κ × α) → List (κ × α)
  | [] => [(k, v)]
  | (k2, v2) :: rest =>
    if k = k2 then (k, v) :: rest else (k2, v2) :: insertA k v rest

theorem lookupA_insertA_self {κ α : Type} [DecidableEq κ] (k : κ) (v : α)
    (m : List (κ × α)) : lookupA k (insertA k v m) = some v := by
  induction m with
  | nil => simp [insertA, lookupA]
  | cons hd tl ih =>
    obtain ⟨k2, v2⟩ := hd
    by_cases h : k = k2
    · simp [insertA, lookupA, h]
    · simp [insertA, lookupA, h, ih]

/-- `state.Vote` (the in-memory vote delivered to `Indexer.OnVote`).
`weight` is `none` when the Go pointer `vote.Weight` is nil. -/
structure StateVote where
  processID : Bytes
  nullifier : Bytes
  votePackage : Bytes
  weight : Option Int
  overwrites : Nat
  height : Nat
  voterID : Bytes
deriving DecidableEq, Repr

/-- `models.StateDBVote`: the previously committed ballot as read back from
the chain application state (`idx.App.State.Vote(pid, nullifier, true)`). -/
structure StateDBVote where
  votePackage : Bytes
  weight : Bytes
  overwriteCount : Nat
deriving DecidableEq, Repr

/-- The indexer's vote pool: votes grouped first by processId and then keyed
by nullifier (`votePool map[string]map[string]*state.Vote`). -/
abbrev VotePool := List (Bytes × List (Bytes × StateVote))

/-- Read `votePool[pid][nullifier]`. -/
def poolLookup (pool : VotePool) (pid nullifier : Bytes) : Option StateVote :=
  lookupA nullifier ((lookupA pid pool).getD [])

/-- Result of the vote-pool section of `Indexer.OnVote`: the updated pool
plus whether the out-of-order warning was logged. -/
structure PoolStep where
  pool : VotePool
  warned : Bool
deriving DecidableEq, Repr

/-- The vote-pool section of `Indexer.OnVote` (indexer.go lines 699-713):
when live results are enabled and the process is live, the incoming vote is
stored under `(processId, nullifier)`; if a vote was already pooled under
that key with a larger overwrite counter, a warning is logged first.  The
incoming vote is stored unconditionally. -/
def onVotePool (ignoreLiveResults : Bool) (isProcessLive : Bytes → Bool)
    (pool : VotePool) (vote : StateVote) : PoolStep :=
  if !ignoreLiveResults && isProcessLive vote.processID then
    let inner := (lookupA vote.processID pool).getD []
    let prevVote := lookupA vote.nullifier inner
    let warned := match prevVote with
      | some pv => decide (vote.overwrites < pv.overwrites)
      | none => false
    { pool := insertA vote.processID (insertA vote.nullifier vote inner) pool
      warned := warned }
  else
    { pool := pool, warned := false }

/-- Concrete process id used for the C1 inputs. -/
def c1pid : Bytes := [1]

/-- Concrete nullifier used for the C1 inputs. -/
def c1nul : Bytes := [2]

/-- A ballot with overwrite counter 2, already pooled. -/
def c1voteHigh : StateVote :=
  { processID := c1pid, nullifier := c1nul, votePackage := [10]
    weight := some 1, overwrites := 2, height := 5, voterID := [] }

/-- A later-delivered ballot for the same key with the lower counter 1. -/
def c1voteLow : StateVote :=
  { processID := c1pid, nullifier := c1nul, votePackage := [11]
    weight := some 1, overwrites := 1, height := 5, voterID := [] }

/-- The pool holding `c1voteHigh` under `(c1pid, c1nul)`. -/
def c1pool : VotePool := [(c1pid, [(c1nul, c1voteHigh)])]

/-- C1 counterexample: with the counter-2 ballot already pooled, delivering the
counter-1 ballot for the same `(processId, nullifier)` logs the warning but the
pool entry afterwards is the counter-1 ballot, not the pooled ballot with the
higher counter — refuting the claim that the higher-counter ballot is kept. -/
theorem c1_counterexample :
    (onVotePool false (fun _ => true) c1pool c1voteLow).warned = true ∧
    poolLookup (onVotePool false (fun _ => true) c1pool c1voteLow).pool
      c1pid c1nul = some c1voteLow ∧
    ¬ poolLookup (onVotePool false (fun _ => true) c1pool c1voteLow).pool
      c1pid c1nul = some c1voteHigh := by
  refine ⟨by decide, by decide, by decide⟩

/-- C1 (amended): for every call to OnVote on a live-results process, the vote
pool entry for `(processId, nullifier)` afterwards holds the most recently
delivered ballot, and the warning is logged exactly when a ballot arrives whose
overwrite counter is lower than the ballot already pooled under that key. -/
theorem c1_onVote_pool_keeps_latest (isLive : Bytes → Bool) (pool : VotePool)
    (vote : StateVote) (hlive : isLive vote.processID = true) :
    poolLookup (onVotePool false isLive pool vote).pool
      vote.processID vote.nullifier = some vote ∧
    ((onVotePool false isLive pool vote).warned = true ↔
      ∃ pv, poolLookup pool vote.processID vote.nullifier = some pv ∧
        vote.overwrites < pv.overwrites) := by
  unfold onVotePool
  simp only [hlive, Bool.not_false, Bool.true_and, if_pos]
  constructor
  · unfold poolLookup
    rw [lookupA_insertA_self, Option.getD_some, lookupA_insertA_self]
  · unfold poolLookup
    cases h : lookupA vote.nullifier ((lookupA vote.processID pool).getD []) with
    | none => simp [h]
    | some pv => simp [h]

/-- Witness for `c1_onVote_pool_keeps_latest` at a concrete live process. -/
theorem c1_onVote_pool_keeps_latest_witness :
    poolLookup (onVotePool false (fun _ => true) [] c1voteHigh).pool
      c1voteHigh.processID c1voteHigh.nullifier = some c1voteHigh :=
  (c1_onVote_pool_keeps_latest (fun _ => true) [] c1voteHigh rfl).1

/-- The live-results accumulator (`results.Results`): per-question tally
vectors plus the aggregated weight.  Only the fields touched by the Commit
loop are modelled; `addLiveVote` itself is an external collaborator. -/
structure Results where
  votes : List (List Int)
  weight : Int
deriving DecidableEq, Repr

/-- Big-endian bytes to a natural number (`new(big.Int).SetBytes`). -/
def bytesToNat (bs : Bytes) : Nat :=
  bs.foldl (fun acc b => acc * 256 + b) 0

/-- The signature of `Indexer.addLiveVote(proc, votePackage, weight, results)`:
it validates and decodes the package and merges it into the accumulator,
returning `none` when the ballot is invalid (the Go method returns an error
and leaves the accumulator unused).  Its body lives outside the indexer file,
so the Commit theorems quantify over every such function. -/
abbrev AddLiveVoteFn := Bytes → Option Int → Results → Option Results

/-- The per-process loop state of `Indexer.Commit`: the two accumulators and
the two counters. -/
structure BallotAcc where
  added : Results
  subtracted : Results
  newVotes : Nat
  overwritedVotes : Nat
deriving DecidableEq, Repr

/-- One iteration of the pooled-ballot loop inside `Indexer.Commit`
(indexer.go lines 584-628).  `stateVote pid nullifier` models
`idx.App.State.Vote(pid, nullifier, true)`, collapsed to `none` both when the
previous ballot is absent and when the read errors (the Go code only logs the
error and leaves `previousVote` nil). -/
def commitBallotStep (stateVote : Bytes → Bytes → Option StateDBVote)
    (addLiveVote : AddLiveVoteFn) (acc : BallotAcc) (v : StateVote) :
    BallotAcc :=
  let previousVote : Option StateDBVote :=
    if v.overwrites > 0 then stateVote v.processID v.nullifier else none
  match previousVote with
  | some prev =>
    if v.overwrites ≤ prev.overwriteCount then
      -- "state stored overwrite count is equal or smaller": log and continue
      acc
    else
      match addLiveVote prev.votePackage
          (some ((bytesToNat prev.weight : Int))) acc.subtracted with
      | none => acc
      | some sub2 =>
        let acc2 : BallotAcc :=
          { acc with subtracted := sub2
                     overwritedVotes := acc.overwritedVotes + 1 }
        match addLiveVote v.votePackage v.weight acc2.added with
        | none => acc2
        | some add2 => { acc2 with added := add2 }
  | none =>
    let acc2 : BallotAcc := { acc with newVotes := acc.newVotes + 1 }
    match addLiveVote v.votePackage v.weight acc2.added with
    | none => acc2
    | some add2 => { acc2 with added := add2 }

/-- C2: when the previous committed ballot is readable, a pooled ballot whose
overwrite counter is not strictly greater than the stored one is skipped
entirely (the accumulators and counters are untouched); otherwise the
previous ballot's package and weight go into `subtracted` and the new
ballot's into `added`, and the ballot counts as overwritten. -/
theorem c2_commit_overwrite_check
    (stateVote : Bytes → Bytes → Option StateDBVote)
    (addLiveVote : AddLiveVoteFn) (acc : BallotAcc) (v : StateVote)
    (prev : StateDBVote) (hov : 0 < v.overwrites)
    (hprev : stateVote v.processID v.nullifier = some prev) :
    (v.overwrites ≤ prev.overwriteCount →
      commitBallotStep stateVote addLiveVote acc v = acc) ∧
    (∀ sub2 add2, prev.overwriteCount < v.overwrites →
      addLiveVote prev.votePackage
        (some ((bytesToNat prev.weight : Int))) acc.subtracted = some sub2 →
      addLiveVote v.votePackage v.weight acc.added = some add2 →
      commitBallotStep stateVote addLiveVote acc v =
        { added := add2, subtracted := sub2, newVotes := acc.newVotes
          overwritedVotes := acc.overwritedVotes + 1 }) := by
  constructor
  · intro hle
    unfold commitBallotStep
    simp [hov, hprev, hle]
  · intro sub2 add2 hlt hsub hadd
    unfold commitBallotStep
    simp [hov, hprev, Nat.not_le.mpr hlt, hsub, hadd]

/-- C3: when the previous committed ballot cannot be read (nil or error), the
new ballot is still merged into `added`, nothing is merged into `subtracted`,
and the ballot counts as a new vote rather than an overwritten one. -/
theorem c3_commit_missing_previous
    (stateVote : Bytes → Bytes → Option StateDBVote)
    (addLiveVote : AddLiveVoteFn) (acc : BallotAcc) (v : StateVote)
    (add2 : Results) (hov : 0 < v.overwrites)
    (hprev : stateVote v.processID v.nullifier = none)
    (hadd : addLiveVote v.votePackage v.weight acc.added = some add2) :
    commitBallotStep stateVote addLiveVote acc v =
      { acc with added := add2, newVotes := acc.newVotes + 1 } := by
  unfold commitBallotStep
  simp [hov, hprev, hadd]

/-- A concrete always-succeeding `addLiveVote` for the witnesses: it adds the
weight (defaulting to 1 when absent, as the spec documents) and leaves the
tally vectors alone. -/
def addLiveVoteDemo : AddLiveVoteFn := fun _ w r =>
  some { r with weight := r.weight + w.getD 1 }

/-- Concrete previous committed ballot for the C2 witness. -/
def c2prev : StateDBVote := { votePackage := [3], weight := [2], overwriteCount := 0 }

/-- Concrete pooled ballot (overwrite counter 1) for the C2/C3 witnesses. -/
def c2vote : StateVote :=
  { processID := [1], nullifier := [2], votePackage := [4]
    weight := some 7, overwrites := 1, height := 9, voterID := [] }

/-- Concrete empty accumulator for the C2/C3 witnesses. -/
def c2acc : BallotAcc :=
  { added := { votes := [[0]], weight := 0 }
    subtracted := { votes := [[0]], weight := 0 }
    newVotes := 0, overwritedVotes := 0 }

/-- Witness for `c2_commit_overwrite_check` at concrete inputs. -/
theorem c2_commit_overwrite_check_witness :
    commitBallotStep (fun _ _ => some c2prev) addLiveVoteDemo c2acc c2vote =
      { added := { votes := [[0]], weight := 7 }
        subtracted := { votes := [[0]], weight := 2 }
        newVotes := 0, overwritedVotes := 1 } :=
  (c2_commit_overwrite_check (fun _ _ => some c2prev) addLiveVoteDemo
      c2acc c2vote c2prev (by decide) rfl).2
    { votes := [[0]], weight := 2 } { votes := [[0]], weight := 7 }
    (by decide) (by decide) (by decide)

/-- Witness for `c3_commit_missing_previous` at concrete inputs. -/
theorem c3_commit_missing_previous_witness :
    commitBallotStep (fun _ _ => none) addLiveVoteDemo c2acc c2vote =
      { added := { votes := [[0]], weight := 7 }
        subtracted := { votes := [[0]], weight := 0 }
        newVotes := 1, overwritedVotes := 0 } :=
  c3_commit_missing_previous (fun _ _ => none) addLiveVoteDemo c2acc c2vote
    { votes := [[0]], weight := 7 } (by decide) rfl (by decide)

/-- `vochaintx.TokenTransfer` as consumed by `Indexer.OnTransferTokens`. -/
structure TokenTransfer where
  txHash : Bytes
  fromAddress : Bytes
  toAddress : Bytes
  amount : Nat
deriving DecidableEq, Repr

/-- One row write issued through the block transaction.  Each constructor
mirrors one `queries.CreateX` call in the Event Sink callbacks, carrying the
values the Go code passes (encodings such as the JSON weight string are kept
as the pre-encoding values). -/
inductive WriteOp where
  | createVote (v : StateVote) (txIndex : Int)
  | createAccount (account : Bytes) (balance nonce : Nat)
  | createTokenTransfer (t : TokenTransfer) (blockHeight : Nat)
      (transferTime : Int)
  | createTokenFee (fromAccount : Bytes) (txType : String) (cost : Nat)
      (reference : String) (spendTime : Int) (blockHeight : Nat)
  | createProcess (pid : Bytes)
deriving DecidableEq, Repr

/-- Insert into a set represented as a duplicate-free list
(`map[string]bool` used as a set in Go). -/
def setInsert (x : Bytes) (l : List Bytes) : List Bytes :=
  if x ∈ l then l else l ++ [x]

/-- The mutable state of an `Indexer` value that the Event Sink callbacks,
`Commit` and `Rollback` touch: the three block-scratch maps, the open block
transaction (`none` when no transaction is open, otherwise the writes pending
inside it), and the persisted database rows.  The chain-application facts the
callbacks read (`IsSynced`, `Height`, `Timestamp`) are carried as fields. -/
structure IndexerState where
  ignoreLiveResults : Bool
  isSynced : Bool
  appHeight : Nat
  appTimestamp : Int
  liveResultsProcs : List Bytes
  votePool : VotePool
  blockUpdateProcs : List Bytes
  blockUpdateProcVoteCounts : List Bytes
  blockTx : Option (List WriteOp)
  db : List WriteOp

/-- Lazy transaction open inside `blockTxQueries`: begin a transaction (with
no writes pending yet) when none is open. -/
def openBlockTx (s : IndexerState) : IndexerState :=
  match s.blockTx with
  | none => { s with blockTx := some [] }
  | some _ => s

/-- Issue one row write through `blockTxQueries`: the write lands in the
(lazily opened) block transaction, never directly in the persisted rows. -/
def appendWrite (s : IndexerState) (op : WriteOp) : IndexerState :=
  let s2 := openBlockTx s
  { s2 with blockTx := some ((s2.blockTx.getD []) ++ [op]) }

/-- One Event Sink callback invocation.  `onRevealKeys` carries whether the
state lookup of the process succeeded with a non-nil key index (the callback
returns early otherwise); the remaining constructors carry exactly the Go
callback arguments that the indexer uses. -/
inductive SinkCall where
  | onVote (v : StateVote) (txIndex : Int)
  | onCancel (pid : Bytes)
  | onProcessKeys (pid : Bytes)
  | onProcessStatusChange (pid : Bytes)
  | onProcessDurationChange (pid : Bytes)
  | onRevealKeys (pid : Bytes) (stateHasKeyIndex : Bool)
  | onProcessResults (pid : Bytes)
  | onProcessesStart (pids : List Bytes)
  | onCensusUpdate (pid : Bytes)
  | onSetAccount (account : Bytes) (balance nonce : Nat)
  | onTransferTokens (t : TokenTransfer)
  | onSpendTokens (address : Bytes) (txType : String) (cost : Nat)
      (reference : String)
  | onProcess (pid : Bytes)

/-- Modelled from the spec: `newEmptyProcess` (called by `OnProcess`, defined
outside the provided indexer file) inserts a new Process row with zeroed
results within the block transaction. -/
def newEmptyProcessOp (pid : Bytes) : WriteOp := .createProcess pid

/-- The effect of one Event Sink callback on the indexer state, following
indexer.go lines 683-856: `OnVote` updates the vote pool (for live
processes), inserts the vote row and marks the process vote-count-dirty; the
process-event callbacks mark the process in `blockUpdateProcs`;
`OnSetAccount`, `OnTransferTokens` and `OnSpendTokens` write their rows; and
`OnProcess` inserts the process row and, if synced, marks it live. -/
def applySinkCall (s : IndexerState) : SinkCall → IndexerState
  | .onVote v txIndex =>
    let step := onVotePool s.ignoreLiveResults
      (fun pid => decide (pid ∈ s.liveResultsProcs)) s.votePool v
    let s2 := { s with votePool := step.pool }
    let s3 := appendWrite s2 (.createVote v txIndex)
    { s3 with blockUpdateProcVoteCounts :=
        setInsert v.processID s3.blockUpdateProcVoteCounts }
  | .onCancel pid =>
    { s with blockUpdateProcs := setInsert pid s.blockUpdateProcs }
  | .onProcessKeys pid =>
    { s with blockUpdateProcs := setInsert pid s.blockUpdateProcs }
  | .onProcessStatusChange pid =>
    { s with blockUpdateProcs := setInsert pid s.blockUpdateProcs }
  | .onProcessDurationChange pid =>
    { s with blockUpdateProcs := setInsert pid s.blockUpdateProcs }
  | .onRevealKeys pid stateHasKeyIndex =>
    if stateHasKeyIndex then
      { s with blockUpdateProcs := setInsert pid s.blockUpdateProcs }
    else s
  | .onProcessResults pid =>
    { s with blockUpdateProcs := setInsert pid s.blockUpdateProcs }
  | .onProcessesStart pids =>
    { s with blockUpdateProcs :=
        pids.foldl (fun m pid => setInsert pid m) s.blockUpdateProcs }
  | .onCensusUpdate pid =>
    { s with blockUpdateProcs := setInsert pid s.blockUpdateProcs }
  | .onSetAccount account balance nonce =>
    appendWrite s (.createAccount account balance nonce)
  | .onTransferTokens t =>
    appendWrite s (.createTokenTransfer t s.appHeight s.appTimestamp)
  | .onSpendTokens address txType cost reference =>
    appendWrite s
      (.createTokenFee address txType cost reference s.appTimestamp s.appHeight)
  | .onProcess pid =>
    let s2 := appendWrite s (newEmptyProcessOp pid)
    if s2.isSynced then
      { s2 with liveResultsProcs := setInsert pid s2.liveResultsProcs }
    else s2

/-- A sequence of Event Sink callbacks applied in order. -/
def applySinkCalls (s : IndexerState) (calls : List SinkCall) : IndexerState :=
  calls.foldl applySinkCall s

/-- `Indexer.Rollback` (indexer.go lines 668-681): clear the three scratch
maps and, if a block transaction is open, roll it back (discarding its
pending writes — the persisted rows are untouched) and null the handle. -/
def RollbackModel (s : IndexerState) : IndexerState :=
  { s with votePool := []
           blockUpdateProcs := []
           blockUpdateProcVoteCounts := []
           blockTx := none }

theorem appendWrite_db (s : IndexerState) (op : WriteOp) :
    (appendWrite s op).db = s.db := by
  unfold appendWrite openBlockTx
  cases s.blockTx <;> rfl

theorem applySinkCall_db (s : IndexerState) (c : SinkCall) :
    (applySinkCall s c).db = s.db := by
  cases c with
  | onVote v txIndex => simp [applySinkCall, appendWrite_db]
  | onRevealKeys pid stateHasKeyIndex => cases stateHasKeyIndex <;> rfl
  | onSetAccount account balance nonce => simp [applySinkCall, appendWrite_db]
  | onTransferTokens t => simp [applySinkCall, appendWrite_db]
  | onSpendTokens address txType cost reference =>
    simp [applySinkCall, appendWrite_db]
  | onProcess pid =>
    by_cases h : (appendWrite s (newEmptyProcessOp pid)).isSynced
    · simp [applySinkCall, h, appendWrite_db]
    · simp [applySinkCall, h, appendWrite_db]
  | _ => rfl

theorem applySinkCalls_db (s : IndexerState) (calls : List SinkCall) :
    (applySinkCalls s calls).db = s.db := by
  induction calls generalizing s with
  | nil => rfl
  | cons c rest ih =>
    show (applySinkCalls (applySinkCall s c) rest).db = s.db
    rw [ih, applySinkCall_db]

/-- C4: after `Rollback()` following any sequence of Event Sink calls within
a block, the three block-scratch maps are empty, the transaction handle is
null (any open transaction was rolled back, discarding its writes), and the
persisted rows equal the state before the first call of the block. -/
theorem c4_rollback_resets (s : IndexerState) (calls : List SinkCall) :
    (RollbackModel (applySinkCalls s calls)).votePool = [] ∧
    (RollbackModel (applySinkCalls s calls)).blockUpdateProcs = [] ∧
    (RollbackModel (applySinkCalls s calls)).blockUpdateProcVoteCounts = [] ∧
    (RollbackModel (applySinkCalls s calls)).blockTx = none ∧
    (RollbackModel (applySinkCalls s calls)).db = s.db := by
  refine ⟨rfl, rfl, rfl, rfl, ?_⟩
  show (applySinkCalls s calls).db = s.db
  exact applySinkCalls_db s calls

/-- The prepared-query handle (`*indexerdb.Queries`): prepared once and,
via `WithTx`, bound to the transaction it should run in. -/
structure Queries where
  boundTx : Option Nat
deriving DecidableEq, Repr

/-- `Queries.WithTx`: rebind the prepared statements to a transaction. -/
def withTxQ (q : Queries) (tx : Nat) : Queries := { q with boundTx := some tx }

/-- The members of `Indexer` that `blockTxQueries` touches: whether the
caller holds `blockMu`, the open transaction handle, the prepared-query
handle, and a counter supplying fresh transaction identities for
`readWriteDB.Begin`. -/
structure TxQState where
  lockHeld : Bool
  blockTx : Option Nat
  blockQueries : Queries
  nextTx : Nat
deriving DecidableEq, Repr

/-- Outcome of `blockTxQueries`: either the Go panic, or the queries handle
to use together with the updated indexer members. -/
inductive TxQResult where
  | panicked (msg : String)
  | ok (q : Queries) (s : TxQState)
deriving DecidableEq, Repr

/-- `Indexer.blockTxQueries` (indexer.go lines 312-326): `TryLock` succeeds
exactly when the caller does not hold `blockMu`, in which case the function
panics; otherwise, if no block transaction is open, one is begun and the
prepared-query handle is rebound to it. -/
def blockTxQueriesModel (s : TxQState) : TxQResult :=
  if !s.lockHeld then
    .panicked "Indexer.blockTxQueries was called without locking Indexer.lockPool"
  else
    match s.blockTx with
    | none =>
      let tx := s.nextTx
      let q := withTxQ s.blockQueries tx
      .ok q { s with blockTx := some tx, blockQueries := q
                     nextTx := s.nextTx + 1 }
    | some _ => .ok s.blockQueries s

/-- C5: calling `blockTxQueries` without holding the block lock panics; with
the lock held and no transaction open, a new transaction is begun (the handle
becomes non-null) and the prepared-query handle is rebound to it. -/
theorem c5_blockTxQueries (s : TxQState) :
    (s.lockHeld = false →
      blockTxQueriesModel s = .panicked
        "Indexer.blockTxQueries was called without locking Indexer.lockPool") ∧
    (s.lockHeld = true → s.blockTx = none →
      blockTxQueriesModel s =
        .ok (withTxQ s.blockQueries s.nextTx)
          { s with blockTx := some s.nextTx
                   blockQueries := withTxQ s.blockQueries s.nextTx
                   nextTx := s.nextTx + 1 } ∧
      (withTxQ s.blockQueries s.nextTx).boundTx = some s.nextTx) := by
  constructor
  · intro h
    unfold blockTxQueriesModel
    simp [h]
  · intro hlock hnone
    unfold blockTxQueriesModel
    simp [hlock, hnone, withTxQ]

/-- Witness for `c5_blockTxQueries` at a concrete locked state with no open
transaction. -/
theorem c5_blockTxQueries_witness :
    blockTxQueriesModel
        { lockHeld := true, blockTx := none
          blockQueries := { boundTx := none }, nextTx := 3 } =
      .ok { boundTx := some 3 }
        { lockHeld := true, blockTx := some 3
          blockQueries := { boundTx := some 3 }, nextTx := 4 } :=
  ((c5_blockTxQueries
      { lockHeld := true, blockTx := none
        blockQueries := { boundTx := none }, nextTx := 3 }).2 rfl rfl).1

/-- An in-memory file system: path to file bytes. -/
abbrev FileSys := List (String × Bytes)

/-- `copyFile(dst, src)` (indexer.go lines 214-231): fails when the source
cannot be opened, otherwise writes the source's bytes at the destination. -/
def copyFile (fs : FileSys) (dst src : String) : Except String FileSys :=
  match lookupA src fs with
  | none => .error "open source failed"
  | some bs => .ok (insertA dst bs fs)

/-- The members of `Indexer` that `RestoreBackup` and `startDB` touch:
the DB path, whether `readWriteDB` is non-nil (the database was opened), and
the file system. -/
structure RestoreState where
  dbPath : String
  dbOpened : Bool
  fs : FileSys
deriving DecidableEq, Repr

/-- Outcome of `RestoreBackup`: the Go panic, an error return, or success
with the updated state. -/
inductive RestoreResult where
  | panicked (msg : String)
  | failed (err : String)
  | restored (s : RestoreState)
deriving DecidableEq, Repr

/-- `Indexer.startDB` (indexer.go lines 152-212) restricted to the members
modelled here: panics when called twice, otherwise opens the database at
`dbPath`.  (Driver, migration and prepared-statement setup act on the opened
database and are not modelled.) -/
def startDBModel (s : RestoreState) : RestoreResult :=
  if s.dbOpened then .panicked "Indexer.startDB called twice"
  else .restored { s with dbOpened := true }

/-- `Indexer.RestoreBackup` (indexer.go lines 243-257): panics when the
database was already opened; otherwise copies the backup bytes onto the DB
path and then opens the database. -/
def RestoreBackupModel (s : RestoreState) (path : String) : RestoreResult :=
  if s.dbOpened then
    .panicked "Indexer.RestoreBackup called after the database was initialized"
  else
    match copyFile s.fs s.dbPath path with
    | .error e => .failed ("could not restore indexer backup: " ++ e)
    | .ok fs2 => startDBModel { s with fs := fs2 }

/-- C6: `RestoreBackup` panics whenever the database has already been opened;
when it has not been and the backup file is readable, the DB path afterwards
holds exactly the backup's bytes and the database is open. -/
theorem c6_restoreBackup (s : RestoreState) (path : String) (bs : Bytes) :
    (s.dbOpened = true →
      RestoreBackupModel s path = .panicked
        "Indexer.RestoreBackup called after the database was initialized") ∧
    (s.dbOpened = false → lookupA path s.fs = some bs →
      RestoreBackupModel s path =
        .restored { s with fs := insertA s.dbPath bs s.fs, dbOpened := true } ∧
      lookupA s.dbPath (insertA s.dbPath bs s.fs) = some bs) := by
  constructor
  · intro h
    unfold RestoreBackupModel
    simp [h]
  · intro hopen hread
    refine ⟨?_, lookupA_insertA_self _ _ _⟩
    unfold RestoreBackupModel copyFile startDBModel
    simp [hopen, hread]

/-- Witness for `c6_restoreBackup` at a concrete un-opened state with a
readable backup file. -/
theorem c6_restoreBackup_witness :
    RestoreBackupModel
        { dbPath := "data/db.sqlite", dbOpened := false
          fs := [("backup.sqlite", [7, 8])] } "backup.sqlite" =
      .restored
        { dbPath := "data/db.sqlite", dbOpened := true
          fs := [("backup.sqlite", [7, 8]), ("data/db.sqlite", [7, 8])] } := by
  have h := (c6_restoreBackup
      { dbPath := "data/db.sqlite", dbOpened := false
        fs := [("backup.sqlite", [7, 8])] } "backup.sqlite" [7, 8]).2
    rfl (by decide)
  exact h.1.trans (by decide)

/-- Row returned by the `SearchTokenFees` query; `totalCount` is the
window-count column carried on every row. -/
structure TokenFeeRow where
  fromAccount : String
  txType : String
  cost : Int
  reference : String
  spendTime : Int
  blockHeight : Int
  totalCount : Int
deriving DecidableEq, Repr

/-- `indexertypes.TokenFeeMeta`. -/
structure TokenFeeMeta where
  cost : Nat
  fromAccount : String
  txType : String
  height : Nat
  reference : String
  timestamp : Int
deriving DecidableEq, Repr

/-- Parameters of the `SearchTokenFees` query. -/
structure SearchTokenFeesParams where
  limit : Int
  offset : Int
  txType : String
  reference : String
  fromAccount : String

/-- `Indexer.TokenFeesList` (indexer.go lines 858-894), parametric in the
storage query it issues: bad input is rejected before any query; otherwise
the rows are mapped to metas and the total count is taken from the first
row, or 0 when the page is empty. -/
def TokenFeesList
    (search : SearchTokenFeesParams → Except String (List TokenFeeRow))
    (limit offset : Int) (txType reference fromAccount : String) :
    Except String (List TokenFeeMeta × Nat) :=
  if offset < 0 then
    .error ("invalid value: offset cannot be " ++ toString offset)
  else if limit ≤ 0 then
    .error ("invalid value: limit cannot be " ++ toString limit)
  else
    match search { limit := limit, offset := offset, txType := txType
                   reference := reference, fromAccount := fromAccount } with
    | .error e => .error e
    | .ok results =>
      let list := results.map (fun row =>
        { cost := row.cost.toNat, fromAccount := row.fromAccount
          txType := row.txType, height := row.blockHeight.toNat
          reference := row.reference
          timestamp := row.spendTime : TokenFeeMeta })
      match results with
      | [] => .ok (list, 0)
      | r :: _ => .ok (list, r.totalCount.toNat)

/-- Row returned by the `SearchTokenTransfers` query. -/
structure TokenTransferRow where
  txHash : Bytes
  fromAccount : String
  toAccount : String
  amount : Int
  blockHeight : Int
  transferTime : Int
  totalCount : Int
deriving DecidableEq, Repr

/-- `indexertypes.TokenTransferMeta`. -/
structure TokenTransferMeta where
  amount : Nat
  fromAccount : String
  toAccount : String
  height : Nat
  txHash : Bytes
  timestamp : Int
deriving DecidableEq, Repr

/-- Parameters of the `SearchTokenTransfers` query. -/
structure SearchTokenTransfersParams where
  limit : Int
  offset : Int
  fromOrToAccount : String
  fromAccount : String
  toAccount : String

/-- `Indexer.TokenTransfersList` (indexer.go lines 896-932), parametric in
the storage query it issues. -/
def TokenTransfersList
    (search : SearchTokenTransfersParams → Except String (List TokenTransferRow))
    (limit offset : Int) (fromOrToAccount fromAccount toAccount : String) :
    Except String (List TokenTransferMeta × Nat) :=
  if offset < 0 then
    .error ("invalid value: offset cannot be " ++ toString offset)
  else if limit ≤ 0 then
    .error ("invalid value: limit cannot be " ++ toString limit)
  else
    match search { limit := limit, offset := offset
                   fromOrToAccount := fromOrToAccount
                   fromAccount := fromAccount, toAccount := toAccount } with
    | .error e => .error e
    | .ok results =>
      let list := results.map (fun row =>
        { amount := row.amount.toNat, fromAccount := row.fromAccount
          toAccount := row.toAccount, height := row.blockHeight.toNat
          txHash := row.txHash
          timestamp := row.transferTime : TokenTransferMeta })
      match results with
      | [] => .ok (list, 0)
      | r :: _ => .ok (list, r.totalCount.toNat)

/-- Row returned by the `SearchAccounts` query; the account identifier is
kept in its full hex form. -/
structure AccountRow where
  account : String
  balance : Int
  nonce : Int
  totalCount : Int
deriving DecidableEq, Repr

/-- `indexertypes.Account`. -/
structure Account where
  address : String
  balance : Nat
  nonce : Nat
deriving DecidableEq, Repr

/-- Parameters of the `SearchAccounts` query. -/
structure SearchAccountsParams where
  limit : Int
  offset : Int
  accountIDSubstr : String

/-- `Indexer.AccountList` (indexer.go lines 946-975), parametric in the
storage query it issues. -/
def AccountList
    (search : SearchAccountsParams → Except String (List AccountRow))
    (limit offset : Int) (accountID : String) :
    Except String (List Account × Nat) :=
  if offset < 0 then
    .error ("invalid value: offset cannot be " ++ toString offset)
  else if limit ≤ 0 then
    .error ("invalid value: limit cannot be " ++ toString limit)
  else
    match search { limit := limit, offset := offset
                   accountIDSubstr := accountID } with
    | .error e => .error e
    | .ok results =>
      let list := results.map (fun row =>
        { address := row.account, balance := row.balance.toNat
          nonce := row.nonce.toNat : Account })
      match results with
      | [] => .ok (list, 0)
      | r :: _ => .ok (list, r.totalCount.toNat)

/-- `Indexer.AccountExists` (indexer.go lines 977-988): false for any id
whose length differs from 40; otherwise queries one account page and tests
the returned total count (a query error only logs, leaving the count 0). -/
def AccountExists
    (search : SearchAccountsParams → Except String (List AccountRow))
    (accountID : String) : Bool :=
  if accountID.length ≠ 40 then false
  else
    match AccountList search 1 0 accountID with
    | .error _ => false
    | .ok (_, count) => decide (count > 0)

/-- C7: for each of `TokenFeesList`, `TokenTransfersList` and `AccountList`,
a negative offset or a non-positive limit yields a bad-input error for every
possible storage behaviour — so no rows are returned and storage is never
consulted. -/
theorem c7_bad_input_rejected
    (searchFees : SearchTokenFeesParams → Except String (List TokenFeeRow))
    (searchTransfers :
      SearchTokenTransfersParams → Except String (List TokenTransferRow))
    (searchAccounts : SearchAccountsParams → Except String (List AccountRow))
    (limit offset : Int)
    (txType reference fromAccount fromOrToAccount toAccount accountID : String)
    (h : offset < 0 ∨ limit ≤ 0) :
    (∃ e, TokenFeesList searchFees limit offset txType reference fromAccount =
      .error e) ∧
    (∃ e, TokenTransfersList searchTransfers limit offset fromOrToAccount
      fromAccount toAccount = .error e) ∧
    (∃ e, AccountList searchAccounts limit offset accountID = .error e) := by
  by_cases ho : offset < 0
  · refine ⟨⟨"invalid value: offset cannot be " ++ toString offset, ?_⟩,
      ⟨"invalid value: offset cannot be " ++ toString offset, ?_⟩,
      ⟨"invalid value: offset cannot be " ++ toString offset, ?_⟩⟩ <;>
      simp [TokenFeesList, TokenTransfersList, AccountList, ho]
  · have hl : limit ≤ 0 := h.resolve_left ho
    refine ⟨⟨"invalid value: limit cannot be " ++ toString limit, ?_⟩,
      ⟨"invalid value: limit cannot be " ++ toString limit, ?_⟩,
      ⟨"invalid value: limit cannot be " ++ toString limit, ?_⟩⟩ <;>
      simp [TokenFeesList, TokenTransfersList, AccountList, ho, hl]

/-- Witness for `c7_bad_input_rejected` at `offset = -1`. -/
theorem c7_bad_input_rejected_witness :
    ∃ e, TokenFeesList (fun _ => .ok []) 10 (-1) "" "" "" = .error e :=
  (c7_bad_input_rejected (fun _ => .ok []) (fun _ => .ok []) (fun _ => .ok [])
    10 (-1) "" "" "" "" "" "" (Or.inl (by decide))).1

/-- C8: `AccountExists` is false for every id whose length differs from 40,
for every possible storage behaviour; conversely a true answer forces the id
to be exactly 40 characters long. -/
theorem c8_accountExists_length
    (search : SearchAccountsParams → Except String (List AccountRow))
    (accountID : String) :
    (accountID.length ≠ 40 → AccountExists search accountID = false) ∧
    (AccountExists search accountID = true → accountID.length = 40) := by
  constructor
  · intro h
    unfold AccountExists
    simp [h]
  · intro h
    by_contra hlen
    rw [(by
      unfold AccountExists
      simp [hlen] : AccountExists search accountID = false)] at h
    exact Bool.false_ne_true h

/-- Witness for `c8_accountExists_length`: a 39-character id is rejected
even when storage would report a matching account. -/
theorem c8_accountExists_length_witness :
    AccountExists
      (fun _ => .ok [{ account := "ab", balance := 1, nonce := 0
                       totalCount := 1 }])
      "abcdefabcdefabcdefabcdefabcdefabcdefabc" = false :=
  (c8_accountExists_length
    (fun _ => .ok [{ account := "ab", balance := 1, nonce := 0
                     totalCount := 1 }])
    "abcdefabcdefabcdefabcdefabcdefabcdefabc").1 (by decide)

/-- A token-fee row as stored in the database table. -/
structure TokenFeeEntity where
  fromAccount : String
  txType : String
  cost : Int
  reference : String
  spendTime : Int
  blockHeight : Int
deriving DecidableEq, Repr

/-- The stored token-fee rows matching the optional exact-match filters
(zero-value filters are ignored). -/
def feeMatching (table : List TokenFeeEntity)
    (txType reference fromAccount : String) : List TokenFeeEntity :=
  table.filter (fun f =>
    (txType == "" || f.txType == txType) &&
    (reference == "" || f.reference == reference) &&
    (fromAccount == "" || f.fromAccount == fromAccount))

/-- Modelled from the spec: the `SearchTokenFees` SQL query (generated code,
not among the provided files).  Per the query-surface contract, the matching
rows are filtered by the optional filters, the total count of matching rows
is carried as a column on every returned row, and the page is selected by
offset and limit.  Row ordering is omitted: it affects neither page
emptiness nor any count. -/
def searchTokenFeesSQL (table : List TokenFeeEntity)
    (p : SearchTokenFeesParams) : List TokenFeeRow :=
  let matching := feeMatching table p.txType p.reference p.fromAccount
  ((matching.drop p.offset.toNat).take p.limit.toNat).map (fun f =>
    { fromAccount := f.fromAccount, txType := f.txType, cost := f.cost
      reference := f.reference, spendTime := f.spendTime
      blockHeight := f.blockHeight, totalCount := (matching.length : Int) })

/-- A token-transfer row as stored in the database table. -/
structure TokenTransferEntity where
  txHash : Bytes
  fromAccount : String
  toAccount : String
  amount : Int
  blockHeight : Int
  transferTime : Int
deriving DecidableEq, Repr

/-- The stored token-transfer rows matching the optional filters. -/
def transferMatching (table : List TokenTransferEntity)
    (fromOrToAccount fromAccount toAccount : String) :
    List TokenTransferEntity :=
  table.filter (fun t =>
    (fromOrToAccount == "" ||
      (t.fromAccount == fromOrToAccount || t.toAccount == fromOrToAccount)) &&
    (fromAccount == "" || t.fromAccount == fromAccount) &&
    (toAccount == "" || t.toAccount == toAccount))

/-- Modelled from the spec: the `SearchTokenTransfers` SQL query (generated
code, not among the provided files), with the same pagination and
total-count conventions as `searchTokenFeesSQL`. -/
def searchTokenTransfersSQL (table : List TokenTransferEntity)
    (p : SearchTokenTransfersParams) : List TokenTransferRow :=
  let matching :=
    transferMatching table p.fromOrToAccount p.fromAccount p.toAccount
  ((matching.drop p.offset.toNat).take p.limit.toNat).map (fun t =>
    { txHash := t.txHash, fromAccount := t.fromAccount
      toAccount := t.toAccount, amount := t.amount
      blockHeight := t.blockHeight, transferTime := t.transferTime
      totalCount := (matching.length : Int) })

/-- Does `sub` occur at the start of `l`? -/
def listStartsWith : List Char → List Char → Bool
  | _, [] => true
  | [], _ :: _ => false
  | c :: cs, d :: ds => c == d && listStartsWith cs ds

/-- Does `sub` occur anywhere inside `l`? -/
def listHasSub (sub : List Char) : List Char → Bool
  | [] => sub.isEmpty
  | c :: rest => listStartsWith (c :: rest) sub || listHasSub sub rest

/-- Substring containment on strings (SQL `LIKE '%' || x || '%'`). -/
def strHasSub (s sub : String) : Bool := listHasSub sub.data s.data

/-- An account row as stored in the database table, with the address in its
full hex form. -/
structure AccountEntity where
  account : String
  balance : Int
  nonce : Int
deriving DecidableEq, Repr

/-- The stored account rows matching the optional substring filter. -/
def accountMatching (table : List AccountEntity) (accountIDSubstr : String) :
    List AccountEntity :=
  table.filter (fun a =>
    accountIDSubstr == "" || strHasSub a.account accountIDSubstr)

/-- Modelled from the spec: the `SearchAccounts` SQL query (generated code,
not among the provided files), filtering by an optional substring over the
hex address, with the same pagination and total-count conventions as
`searchTokenFeesSQL`. -/
def searchAccountsSQL (table : List AccountEntity)
    (p : SearchAccountsParams) : List AccountRow :=
  let matching := accountMatching table p.accountIDSubstr
  ((matching.drop p.offset.toNat).take p.limit.toNat).map (fun a =>
    { account := a.account, balance := a.balance, nonce := a.nonce
      totalCount := (matching.length : Int) })

theorem dropTake_nil {α : Type} (l : List α) (o lim : Nat)
    (h : l.length ≤ o) : (l.drop o).take lim = [] := by
  rw [List.drop_eq_nil_of_le h, List.take_nil]

/-- C10: for each listing operation backed by the modelled SQL queries, a
page that is empty because the offset is at least the number of matching
rows comes back with `totalCount = 0` and no error, regardless of how many
rows match the filters — the total count is carried only in the first
result row. -/
theorem c10_empty_page_total_zero
    (feeTable : List TokenFeeEntity) (transferTable : List TokenTransferEntity)
    (accountTable : List AccountEntity) (limit offset : Int)
    (txType reference fromAccount fromOrToAccount toAccount accountID : String)
    (hoff : ¬ offset < 0) (hlim : ¬ limit ≤ 0)
    (hfee : (feeMatching feeTable txType reference fromAccount).length ≤
      offset.toNat)
    (htr : (transferMatching transferTable fromOrToAccount fromAccount
      toAccount).length ≤ offset.toNat)
    (hacc : (accountMatching accountTable accountID).length ≤ offset.toNat) :
    TokenFeesList (fun p => .ok (searchTokenFeesSQL feeTable p))
      limit offset txType reference fromAccount = .ok ([], 0) ∧
    TokenTransfersList (fun p => .ok (searchTokenTransfersSQL transferTable p))
      limit offset fromOrToAccount fromAccount toAccount = .ok ([], 0) ∧
    AccountList (fun p => .ok (searchAccountsSQL accountTable p))
      limit offset accountID = .ok ([], 0) := by
  have e1 : searchTokenFeesSQL feeTable
      { limit := limit, offset := offset, txType := txType
        reference := reference, fromAccount := fromAccount } = [] := by
    simp only [searchTokenFeesSQL]
    rw [dropTake_nil _ _ _ hfee, List.map_nil]
  have e2 : searchTokenTransfersSQL transferTable
      { limit := limit, offset := offset, fromOrToAccount := fromOrToAccount
        fromAccount := fromAccount, toAccount := toAccount } = [] := by
    simp only [searchTokenTransfersSQL]
    rw [dropTake_nil _ _ _ htr, List.map_nil]
  have e3 : searchAccountsSQL accountTable
      { limit := limit, offset := offset, accountIDSubstr := accountID } = [] := by
    simp only [searchAccountsSQL]
    rw [dropTake_nil _ _ _ hacc, List.map_nil]
  refine ⟨?_, ?_, ?_⟩
  · simp [TokenFeesList, hoff, hlim, e1]
  · simp [TokenTransfersList, hoff, hlim, e2]
  · simp [AccountList, hoff, hlim, e3]

/-- Concrete single-row fee table for the C10 witness. -/
def c10feeTable : List TokenFeeEntity :=
  [{ fromAccount := "aa", txType := "vote", cost := 3, reference := "r"
     spendTime := 0, blockHeight := 1 }]

/-- Concrete single-row transfer table for the C10 witness. -/
def c10transferTable : List TokenTransferEntity :=
  [{ txHash := [1], fromAccount := "aa", toAccount := "bb", amount := 5
     blockHeight := 1, transferTime := 0 }]

/-- Concrete single-row account table for the C10 witness. -/
def c10accountTable : List AccountEntity :=
  [{ account := "aa", balance := 9, nonce := 1 }]

/-- Witness for `c10_empty_page_total_zero`: each table holds one matching
row, yet with `offset = 1` every listing returns an empty page with
`totalCount = 0` and no error. -/
theorem c10_empty_page_total_zero_witness :
    (feeMatching c10feeTable "" "" "").length = 1 ∧
    (transferMatching c10transferTable "" "" "").length = 1 ∧
    (accountMatching c10accountTable "").length = 1 ∧
    TokenFeesList (fun p => .ok (searchTokenFeesSQL c10feeTable p))
      10 1 "" "" "" = .ok ([], 0) ∧
    TokenTransfersList (fun p => .ok (searchTokenTransfersSQL c10transferTable p))
      10 1 "" "" "" = .ok ([], 0) ∧
    AccountList (fun p => .ok (searchAccountsSQL c10accountTable p))
      10 1 "" = .ok ([], 0) := by
  have h := c10_empty_page_total_zero c10feeTable c10transferTable
    c10accountTable 10 1 "" "" "" "" "" "" (by decide) (by decide)
    (by decide) (by decide) (by decide)
  exact ⟨by decide, by decide, by decide, h.1, h.2.1, h.2.2⟩

/-- A raw transaction from the block store: its hash and whether
`vochaintx.Tx.Unmarshal` succeeds on it. -/
structure StoreTx where
  hash : Bytes
  unmarshalOk : Bool
deriving DecidableEq, Repr

/-- A block from the block store, as consumed by `ReindexBlocks`. -/
structure StoreBlock where
  height : Nat
  txs : List StoreTx
deriving DecidableEq, Repr

/-- The transactions closure of `Indexer.ReindexBlocks` (indexer.go lines
488-505) for one block: `storedHash index` models
`GetTransactionByHeightAndIndex` (`none` when the index holds no row at that
position).  The returned list collects the block indices for which
`indexTx` is invoked; a stored row whose hash differs from the block store's
aborts the closure (`return`), a failed unmarshal skips one transaction
(`continue`). -/
def reindexBlockTxs (storedHash : Nat → Option Bytes) :
    Nat → List StoreTx → List Nat
  | _, [] => []
  | index, tx :: rest =>
    match storedHash index with
    | some h =>
      if h ≠ tx.hash then []
      else if tx.unmarshalOk then
        index :: reindexBlockTxs storedHash (index + 1) rest
      else reindexBlockTxs storedHash (index + 1) rest
    | none =>
      if tx.unmarshalOk then
        index :: reindexBlockTxs storedHash (index + 1) rest
      else reindexBlockTxs storedHash (index + 1) rest

/-- The blocks loop of `ReindexBlocks`, restricted to the transaction
dispatch: for each block the transactions closure runs, and its outcome
never stops the iteration over the remaining blocks.  The result is the
list of (height, index) positions for which `indexTx` is invoked. -/
def reindexBlocksTxPositions (storedHash : Nat → Nat → Option Bytes) :
    List StoreBlock → List (Nat × Nat)
  | [] => []
  | b :: rest =>
    (reindexBlockTxs (storedHash b.height) 0 b.txs).map (fun i => (b.height, i))
      ++ reindexBlocksTxPositions storedHash rest

/-- Stored-row lookup for the C9 counterexample: position (1, 0) holds a row
with hash `[9]`, every other position is empty. -/
def c9storedHash : Nat → Nat → Option Bytes :=
  fun height index => if height = 1 ∧ index = 0 then some [9] else none

/-- Block store for the C9 counterexample: block 1 carries two transactions
(hashes `[1]` and `[2]`), block 2 carries one (hash `[3]`); all unmarshal. -/
def c9blocks : List StoreBlock :=
  [{ height := 1, txs := [{ hash := [1], unmarshalOk := true },
                          { hash := [2], unmarshalOk := true }] },
   { height := 2, txs := [{ hash := [3], unmarshalOk := true }] }]

/-- C9 counterexample: the stored row at (1, 0) has a hash different from
the block store's, and reindexing then skips the *whole rest of block 1* —
position (1, 1) is never indexed, refuting the claim that only the
mismatching row is skipped and the remaining transactions of the block are
processed.  (The next block is still processed.) -/
theorem c9_counterexample :
    reindexBlocksTxPositions c9storedHash c9blocks = [(2, 0)] ∧
    ¬ (1, 1) ∈ reindexBlocksTxPositions c9storedHash c9blocks := by
  refine ⟨by decide, by decide⟩

/-- C9 (amended): a stored transaction whose hash differs from the block
store's is non-fatal and leaves the existing row untouched (its position is
never re-indexed), but it aborts the remaining transactions of that block;
reindexing still continues with the subsequent blocks. -/
theorem c9_mismatch_aborts_block_continues_blocks
    (stored : Nat → Option Bytes) (storedAll : Nat → Nat → Option Bytes)
    (index : Nat) (tx : StoreTx) (rest : List StoreTx) (h : Bytes)
    (b : StoreBlock) (blocks : List StoreBlock)
    (hstored : stored index = some h) (hne : h ≠ tx.hash) :
    reindexBlockTxs stored index (tx :: rest) = [] ∧
    reindexBlocksTxPositions storedAll (b :: blocks) =
      (reindexBlockTxs (storedAll b.height) 0 b.txs).map
        (fun i => (b.height, i)) ++
        reindexBlocksTxPositions storedAll blocks := by
  constructor
  · unfold reindexBlockTxs
    simp [hstored, hne]
  · rfl

/-- Witness for `c9_mismatch_aborts_block_continues_blocks` at the
counterexample's inputs. -/
theorem c9_mismatch_aborts_block_continues_blocks_witness :
    reindexBlockTxs (c9storedHash 1) 0
      [{ hash := [1], unmarshalOk := true },
       { hash := [2], unmarshalOk := true }] = [] :=
  (c9_mismatch_aborts_block_continues_blocks (c9storedHash 1) c9storedHash 0
    { hash := [1], unmarshalOk := true } [{ hash := [2], unmarshalOk := true }]
    [9] { height := 2, txs := [{ hash := [3], unmarshalOk := true }] } []
    (by decide) (by decide)).1

end VocdoniIndexer
